import Mathlib

set_option maxHeartbeats 1000000

/-!
# Verification of the IndPakNews annotation and analytics pipeline

Shallow embedding of the server's article annotation and analytics code
(`server.js`): the categorizer, the priority classifier, the article
annotator, the analytics aggregator, the crisis-level assessor and the
response cache, together with theorems about them.

Modelling conventions:
* JS strings are Lean `String`s; lowercasing is per-character
  (`jsToLower`), which coincides with `toLowerCase` on the ASCII inputs of
  interest.
* Timestamps are Unix milliseconds (`Int`).  The JS code stores ISO strings
  and compares them through `moment`/`Date`; those comparisons are exactly
  comparisons of this value.
* The external `sentiment` library and the `moment` date formatter are
  collaborators, passed as function parameters (the spec treats them as
  external capabilities).
* Possibly-`undefined` JS string fields are `Option String`; where the JS
  code concatenates such a field without a default, `undefined` coerces to
  the string "undefined" (JS `ToString` semantics), modelled by `jsStr`.
-/

namespace IndPakNews

/-- JS `toLowerCase` (the inputs of interest are ASCII, where it agrees
with per-character lowercasing). -/
def jsToLower (s : String) : String :=
  String.mk (s.data.map Char.toLower)

/-- Scanning step of `countOccs`, with explicit fuel so the definition is
structurally recursive (the scan jumps past each match, consuming at least
one character per step, so `fuel = s.length` suffices). -/
def countOccsAux (pat : List Char) : Nat → List Char → Nat
  | _, [] => 0
  | 0, _ => 0
  | fuel + 1, c :: rest =>
    if pat ≠ [] ∧ pat.isPrefixOf (c :: rest) then
      countOccsAux pat fuel (rest.drop (pat.length - 1)) + 1
    else
      countOccsAux pat fuel rest

/-- Number of non-overlapping occurrences of `pat` in `s`, scanning left to
right and resuming after the end of each match.  This is the match count of
`s.match(new RegExp(keyword, 'g'))` for a literal (metacharacter-free)
keyword, as used in `categorizeArticle`. -/
def countOccs (pat s : List Char) : Nat :=
  countOccsAux pat s.length s

/-- JS `String.prototype.includes` (substring test) on char lists. -/
def hasSubstr (pat : List Char) : List Char → Bool
  | [] => pat.isEmpty
  | c :: rest => pat.isPrefixOf (c :: rest) || hasSubstr pat rest

/-- `pat` occurs as a contiguous substring of `s`. -/
def occursIn (pat s : List Char) : Prop :=
  ∃ pre post, s = pre ++ pat ++ post

/-- Category lexicon: military (server.js lines 25-29). -/
def militaryKeywords : List String :=
  ["military", "army", "defense", "weapons", "troops", "soldier",
   "war", "combat", "attack", "missile", "security force", "border",
   "terrorist", "airforce", "navy", "artillery", "ceasefire"]

/-- Category lexicon: diplomatic (server.js lines 30-34). -/
def diplomaticKeywords : List String :=
  ["diplomatic", "talks", "embassy", "minister", "peace", "treaty",
   "negotiate", "relation", "dialogue", "summit", "delegation",
   "diplomat", "foreign", "agreement", "bilateral", "cooperation"]

/-- Category lexicon: economic (server.js lines 35-39). -/
def economicKeywords : List String :=
  ["trade", "sanctions", "economy", "business", "market", "export",
   "import", "investment", "economic", "finance", "commerce",
   "tariff", "stock", "currency", "inflation", "gdp", "fiscal"]

/-- Category lexicon: social (server.js lines 40-44). -/
def socialKeywords : List String :=
  ["cultural", "people", "society", "civilian", "humanitarian",
   "refugee", "education", "health", "religion", "festival",
   "tradition", "community", "social", "public", "citizen"]

/-- `keywords.reduce((score, keyword) => score + matchCount, 0)`:
total keyword occurrence count of one category in the lowercased text. -/
def categoryScore (keywords : List String) (textLower : String) : Nat :=
  keywords.foldl (fun score kw => score + countOccs kw.data textLower.data) 0

/-- `categorizeArticle` (server.js lines 23-78): score the four categories,
then take the first category whose score strictly exceeds the running
maximum (initialized to `("other", 0)`); if the best score is 0 the result
is "other". -/
def categorizeArticle (text : String) : String :=
  let textLower := jsToLower text
  let scores : List (String × Nat) :=
    [("military", categoryScore militaryKeywords textLower),
     ("diplomatic", categoryScore diplomaticKeywords textLower),
     ("economic", categoryScore economicKeywords textLower),
     ("social", categoryScore socialKeywords textLower)]
  let best := scores.foldl (fun acc cs => if cs.2 > acc.2 then cs else acc) ("other", 0)
  if best.2 > 0 then best.1 else "other"

/-- High-priority keyword list (server.js lines 82-86). -/
def highPriorityKeywords : List String :=
  ["attack", "war", "missile", "conflict", "crisis", "military",
   "border", "violated", "threat", "army", "defense", "security",
   "nuclear", "weapon", "terrorism", "tension", "dispute"]

/-- `highPriorityKeywords.some(keyword => text.toLowerCase().includes(keyword))`. -/
def containsHighPriorityKeyword (text : String) : Bool :=
  highPriorityKeywords.any (fun kw => hasSubstr kw.data (jsToLower text).data)

/-- `isPriorityArticle` (server.js lines 81-97). -/
def isPriorityArticle (text category : String) (sentiment : Int) : Bool :=
  (category == "military" && containsHighPriorityKeyword text) ||
  (category == "diplomatic" && decide (sentiment < -2)) ||
  (containsHighPriorityKeyword text && decide (sentiment < -3))

/-- First category (in declaration order military, diplomatic, economic,
social) attaining the maximum of the four scores; "other" when the maximum
is 0.  This is the claimed selection rule, stated independently of the
fold in `categorizeArticle`. -/
def firstArgmax (m d e s : Nat) : String :=
  if m = 0 ∧ d = 0 ∧ e = 0 ∧ s = 0 then "other"
  else if d ≤ m ∧ e ≤ m ∧ s ≤ m then "military"
  else if m < d ∧ e ≤ d ∧ s ≤ d then "diplomatic"
  else if m < e ∧ d < e ∧ s ≤ e then "economic"
  else "social"

/-- JS string coercion of a possibly-`undefined` string field, as in
`article.title + ' '`: `undefined` coerces to the string "undefined". -/
def jsStr : Option String → String
  | some s => s
  | none => "undefined"

/-- Result of the external `sentiment` library's `analyze` call.  The
floating-point `comparative` field is omitted from the model (no claim
refers to it). -/
structure SentimentResult where
  score : Int
  positive : List String
  negative : List String
deriving Repr, DecidableEq

/-- Raw article as returned by the GNews provider.  `title` and
`description` are duck-typed JS fields that may be absent. -/
structure RawArticle where
  title : Option String
  description : Option String
  url : String
  image : String
  publishedAt : Int
  sourceName : String
deriving Repr, DecidableEq

/-- Processed article produced by the `/api/news` handler's `map` (server.js
lines 264-284): the raw fields spread through, plus the annotation fields. -/
structure AnnotatedArticle where
  title : Option String
  description : Option String
  url : String
  image : String
  urlToImage : String
  publishedAt : Int
  sourceName : String
  sentiment : Int
  sentimentDetail : SentimentResult
  category : String
  isPriority : Bool
deriving Repr, DecidableEq

/-- One step of `data.articles.map(article => ...)` (server.js lines
264-284).  `description` is defaulted to the empty string
(`article.description || ''`); `title` is NOT defaulted — the JS
concatenation `article.title + ' ' + description` coerces a missing title
to the string "undefined". -/
def annotateOne (analyze : String → SentimentResult) (article : RawArticle) :
    AnnotatedArticle :=
  let description := article.description.getD ""
  let textToAnalyze := jsStr article.title ++ " " ++ description
  let sentimentScore := analyze textToAnalyze
  let category := categorizeArticle textToAnalyze
  { title := article.title
    description := article.description
    url := article.url
    image := article.image
    urlToImage := article.image
    publishedAt := article.publishedAt
    sourceName := article.sourceName
    sentiment := sentimentScore.score
    sentimentDetail := sentimentScore
    category := category
    isPriority := isPriorityArticle textToAnalyze category sentimentScore.score }

/-- The article annotator: `data.articles.map(...)` over the whole list. -/
def annotate (analyze : String → SentimentResult) (raws : List RawArticle) :
    List AnnotatedArticle :=
  raws.map (annotateOne analyze)

/-- Insert `p` into `l`, skipping the elements that strictly precede it
(`lt q p`) and stopping before the first that does not. -/
def stableInsert (lt : α → α → Bool) (p : α) : List α → List α
  | [] => [p]
  | q :: rest => if lt q p then q :: stableInsert lt p rest else p :: q :: rest

/-- Stable sort by the strict-precedence predicate `lt`; models JS
`Array.prototype.sort` with a comparator (stable since ES2019), which the
aggregator uses for the trending-keyword, timeline and key-insight
orderings. -/
def stableSort (lt : α → α → Bool) : List α → List α
  | [] => []
  | p :: rest => stableInsert lt p (stableSort lt rest)

/-- ASCII whitespace recognized by the JS `\s` class (the model restricts
JS `\s` to its ASCII subset). -/
def isJsWhitespace (c : Char) : Bool :=
  c = ' ' || c = '\t' || c = '\n' || c = '\r' || c = '\x0b' || c = '\x0c'

/-- Split a char list at every separator character.  This models
`text.split(/\s+/)` up to extra empty tokens between consecutive
separators; the `length > 3` filter applied to the result discards all
empty tokens in both readings, so the filtered token lists coincide. -/
def splitChars (p : Char → Bool) : List Char → List (List Char)
  | [] => [[]]
  | c :: rest =>
    match splitChars p rest with
    | [] => [[c]]
    | t :: ts => if p c then [] :: t :: ts else (c :: t) :: ts

/-- Stop-word list of the trending-keyword extraction (server.js line 138). -/
def excludedWords : List String :=
  ["the", "and", "of", "in", "to", "a", "is", "for", "on", "with", "as", "at", "by"]

/-- JS `/^\d+$/.test(word)`: nonempty and all decimal digits. -/
def isNumericToken (w : String) : Bool :=
  w.length > 0 && w.data.all Char.isDigit

/-- Filtered tokens of one article for the trending-keyword counter
(server.js lines 140-146): lowercase `article.title + ' ' +
article.description` (both fields spread through unchanged, so a missing
field coerces to "undefined"), split on whitespace, keep tokens of length
> 3 that are not stop words and not purely numeric. -/
def articleWords (a : AnnotatedArticle) : List String :=
  (((splitChars isJsWhitespace
      (jsToLower (jsStr a.title ++ " " ++ jsStr a.description)).data).map
        (fun l => String.mk l)).filter
    (fun w => w.length > 3 && !(excludedWords.contains w) && !(isNumericToken w)))

/-- `keywords[word] = (keywords[word] || 0) + 1` over a JS object whose
keys are the words: an insertion-ordered association list (none of the
kept words is an array-index key, so JS preserves insertion order). -/
def bumpWord (acc : List (String × Nat)) (w : String) : List (String × Nat) :=
  if acc.any (fun p => p.1 = w) then
    acc.map (fun p => if p.1 = w then (p.1, p.2 + 1) else p)
  else
    acc ++ [(w, 1)]

/-- Word-frequency table across all articles (server.js lines 140-151). -/
def keywordCounts (articles : List AnnotatedArticle) : List (String × Nat) :=
  articles.foldl (fun acc a => (articleWords a).foldl bumpWord acc) []

/-- `trendingKeywords` (server.js lines 153-156): sort the frequency table
descending by count (stable, so ties keep first-encountered order) and
take the first 10. -/
def trendingOf (articles : List AnnotatedArticle) : List (String × Nat) :=
  (stableSort (fun a b => decide (b.2 < a.2)) (keywordCounts articles)).take 10

/-- One timeline bucket (server.js line 126), plus its date key.  When
`article.category` is "other" the JS code increments a nonexistent `other`
property (producing `NaN`); that JS artifact has no counter in the model,
which leaves the four named fields unchanged in that case. -/
structure TimelineEntry where
  date : String
  count : Nat
  military : Nat
  diplomatic : Nat
  economic : Nat
  social : Nat
deriving Repr, DecidableEq

/-- `byDate[date].count++; byDate[date][article.category]++`. -/
def bumpTimeline (e : TimelineEntry) (cat : String) : TimelineEntry :=
  { e with
    count := e.count + 1
    military := if cat = "military" then e.military + 1 else e.military
    diplomatic := if cat = "diplomatic" then e.diplomatic + 1 else e.diplomatic
    economic := if cat = "economic" then e.economic + 1 else e.economic
    social := if cat = "social" then e.social + 1 else e.social }

/-- Insert one article into the insertion-ordered `byDate` table
(server.js lines 123-130). -/
def upsertDate (byDate : List TimelineEntry) (d : String) (cat : String) :
    List TimelineEntry :=
  if byDate.any (fun e => e.date = d) then
    byDate.map (fun e => if e.date = d then bumpTimeline e cat else e)
  else
    byDate ++ [bumpTimeline ⟨d, 0, 0, 0, 0, 0⟩ cat]

/-- `assessCrisisLevel` (server.js lines 208-230).  The JS function reads
the wall clock implicitly (`moment()` inside the filter); the model makes
that instant the explicit parameter `now`.  The filter
`moment().diff(moment(p), 'hours') < 48` truncates the hour difference
toward zero, which for integer-millisecond timestamps is equivalent to
`now - p < 48 * 3600000`. -/
def assessCrisisLevel (now : Int) (articles : List AnnotatedArticle) : String :=
  if articles.isEmpty then "normal"
  else
    let recentArticles := articles.filter
      (fun a => decide (now - a.publishedAt < 48 * 3600000))
    let negativeMilitaryCount := (recentArticles.filter
      (fun a => a.category == "military" && decide (a.sentiment < -2))).length
    let negativeDiplomaticCount := (recentArticles.filter
      (fun a => a.category == "diplomatic" && decide (a.sentiment < -2))).length
    if negativeMilitaryCount ≥ 5 ∨ negativeMilitaryCount + negativeDiplomaticCount ≥ 8 then
      "severe"
    else if negativeMilitaryCount ≥ 3 ∨ negativeMilitaryCount + negativeDiplomaticCount ≥ 5 then
      "elevated"
    else if negativeMilitaryCount ≥ 1 ∨ negativeDiplomaticCount ≥ 2 then
      "moderate"
    else
      "normal"

/-- Category distribution (server.js lines 106-112). -/
structure CategoryCounts where
  military : Nat
  diplomatic : Nat
  economic : Nat
  social : Nat
  other : Nat
deriving Repr, DecidableEq

/-- Sentiment distribution (server.js lines 115-119). -/
structure SentimentCounts where
  positive : Nat
  neutral : Nat
  negative : Nat
deriving Repr, DecidableEq

/-- Projection of the most recent article (server.js lines 185-189). -/
structure InsightRecent where
  title : Option String
  date : Int
  source : String
deriving Repr, DecidableEq

/-- Projection of the most negative / most positive article
(server.js lines 190-199). -/
structure InsightSentiment where
  title : Option String
  sentiment : Int
  category : String
deriving Repr, DecidableEq

/-- `keyInsights` (server.js lines 184-200). -/
structure KeyInsights where
  mostRecent : Option InsightRecent
  mostNegative : Option InsightSentiment
  mostPositive : Option InsightSentiment
deriving Repr, DecidableEq

/-- Projection of a significant event (server.js lines 170-177). -/
structure SignificantEvent where
  title : Option String
  date : Int
  category : String
  sentiment : Int
  source : String
  url : String
deriving Repr, DecidableEq

/-- The analytics summary returned by `calculateAnalytics`
(server.js lines 179-204). -/
structure Analytics where
  categories : CategoryCounts
  sentimentCounts : SentimentCounts
  timelineData : List TimelineEntry
  trendingKeywords : List (String × Nat)
  keyInsights : KeyInsights
  crisisLevel : String
  significantEvents : List SignificantEvent
  lastUpdated : Int
deriving Repr, DecidableEq

/-- `calculateAnalytics` (server.js lines 100-205).  External collaborators
are explicit parameters: `now` is the wall-clock instant (the JS code takes
several `new Date()` / `moment()` readings milliseconds apart during one
computation, modelled as a single instant), `fd` is
`t => moment(t).format('YYYY-MM-DD')` and `pd` is
`d => moment(d).valueOf()`, the date maths used by the timeline sort. -/
def calculateAnalytics (now : Int) (fd : Int → String) (pd : String → Int)
    (articles : List AnnotatedArticle) : Option Analytics :=
  if articles.isEmpty then none
  else
    some
      { categories :=
          { military := (articles.filter (fun a => a.category == "military")).length
            diplomatic := (articles.filter (fun a => a.category == "diplomatic")).length
            economic := (articles.filter (fun a => a.category == "economic")).length
            social := (articles.filter (fun a => a.category == "social")).length
            other := (articles.filter (fun a => a.category == "other")).length }
        sentimentCounts :=
          { positive := (articles.filter (fun a => decide (a.sentiment > 0))).length
            neutral := (articles.filter (fun a => a.sentiment == 0)).length
            negative := (articles.filter (fun a => decide (a.sentiment < 0))).length }
        timelineData :=
          stableSort (fun a b => decide (pd a.date < pd b.date))
            (articles.foldl
              (fun acc a => upsertDate acc (fd a.publishedAt) a.category) [])
        trendingKeywords := trendingOf articles
        keyInsights :=
          { mostRecent :=
              ((stableSort (fun a b => decide (b.publishedAt < a.publishedAt))
                  articles).head?).map
                (fun a => { title := a.title, date := a.publishedAt
                            source := a.sourceName })
            mostNegative :=
              ((stableSort (fun a b => decide (a.sentiment < b.sentiment))
                  articles).head?).map
                (fun a => { title := a.title, sentiment := a.sentiment
                            category := a.category })
            mostPositive :=
              ((stableSort (fun a b => decide (b.sentiment < a.sentiment))
                  articles).head?).map
                (fun a => { title := a.title, sentiment := a.sentiment
                            category := a.category }) }
        crisisLevel := assessCrisisLevel now articles
        significantEvents :=
          (articles.filter (fun a =>
              (a.category == "military" && decide (a.sentiment < -3)) ||
              (a.category == "diplomatic" && decide (a.sentiment < -4)))).map
            (fun a => { title := a.title, date := a.publishedAt
                        category := a.category, sentiment := a.sentiment
                        source := a.sourceName, url := a.url })
        lastUpdated := now }

/-- The `/api/news` response body on success (server.js lines 287-290). -/
structure ProcessedResponse where
  articles : List AnnotatedArticle
  analytics : Option Analytics
deriving DecidableEq

/-- The module-level `newsCache` object (server.js lines 17-20). -/
structure NewsCache where
  data : Option ProcessedResponse
  lastFetched : Option Int
deriving DecidableEq

/-- Body of the provider's JSON response; `articles` is absent when the
provider returns an error object (`!data.articles`). -/
structure GNewsData where
  articles : Option (List RawArticle)
deriving DecidableEq

/-- Cache TTL: 15 minutes in milliseconds (server.js line 240). -/
def cacheTTL : Int := 15 * 60 * 1000

/-- The refresh path of the handler (server.js lines 245-304): check the
API key (JS falsy: absent or empty), then inspect the fetch outcome —
a thrown fetch lands in the `catch` block, a response without an article
list returns the invalid-response error; both leave `newsCache` untouched.
On success the processed response is stored with `lastFetched = now` and
returned.  When the key is missing the fetch never happens, so
`fetchResult` is simply unused in that branch. -/
def refreshNews (analyze : String → SentimentResult) (fd : Int → String)
    (pd : String → Int) (apiKey : Option String) (cache : NewsCache)
    (now : Int) (fetchResult : Except String GNewsData) :
    Except String ProcessedResponse × NewsCache :=
  if apiKey.getD "" = "" then
    (Except.error "API key not configured", cache)
  else
    match fetchResult with
    | Except.error _ => (Except.error "Failed to fetch news data", cache)
    | Except.ok data =>
      match data.articles with
      | none => (Except.error "Invalid API response", cache)
      | some rawArticles =>
        let processedArticles := annotate analyze rawArticles
        let analytics := calculateAnalytics now fd pd processedArticles
        let processedResponse : ProcessedResponse :=
          { articles := processedArticles, analytics := analytics }
        (Except.ok processedResponse,
         { data := some processedResponse, lastFetched := some now })

/-- The `/api/news` handler (server.js lines 233-305): if both cache fields
are set (JS truthiness of the stored object and `Date`) and the entry is
younger than the TTL, answer from the cache without touching the network;
otherwise run the refresh path. -/
def handleNews (analyze : String → SentimentResult) (fd : Int → String)
    (pd : String → Int) (apiKey : Option String) (cache : NewsCache)
    (now : Int) (fetchResult : Except String GNewsData) :
    Except String ProcessedResponse × NewsCache :=
  match cache.data, cache.lastFetched with
  | some d, some t =>
    if now - t < cacheTTL then (Except.ok d, cache)
    else refreshNews analyze fd pd apiKey cache now fetchResult
  | _, _ => refreshNews analyze fd pd apiKey cache now fetchResult

/-- The cache check fails (no stored entry, or the entry is at least
`cacheTTL` old), so the handler takes the refresh path. -/
def cacheMiss (cache : NewsCache) (now : Int) : Bool :=
  match cache.data, cache.lastFetched with
  | some _, some t => decide (cacheTTL ≤ now - t)
  | _, _ => true


theorem isPrefixOf_exists_append (pat : List Char) :
    ∀ l, pat.isPrefixOf l = true ↔ ∃ post, l = pat ++ post := by
  induction pat with
  | nil =>
    intro l
    simp only [List.isPrefixOf, List.nil_append, true_iff]
    exact ⟨l, rfl⟩
  | cons a as ih =>
    intro l
    cases l with
    | nil => simp [List.isPrefixOf]
    | cons b bs =>
      simp only [List.isPrefixOf, Bool.and_eq_true, beq_iff_eq, ih bs]
      constructor
      · rintro ⟨rfl, post, rfl⟩
        exact ⟨post, rfl⟩
      · rintro ⟨post, h⟩
        injection h with h1 h2
        exact ⟨h1.symm, post, h2⟩

theorem hasSubstr_iff_occursIn (pat s : List Char) :
    hasSubstr pat s = true ↔ occursIn pat s := by
  induction s with
  | nil =>
    simp only [hasSubstr, occursIn, List.isEmpty_iff]
    constructor
    · rintro rfl
      exact ⟨[], [], rfl⟩
    · rintro ⟨pre, post, h⟩
      rcases List.append_eq_nil.mp h.symm with ⟨h1, h2⟩
      exact (List.append_eq_nil.mp h1).2
  | cons c rest ih =>
    simp only [hasSubstr, Bool.or_eq_true, ih, isPrefixOf_exists_append]
    constructor
    · rintro (⟨post, h⟩ | ⟨pre, post, h⟩)
      · exact ⟨[], post, by simpa using h⟩
      · exact ⟨c :: pre, post, by simp [h]⟩
    · rintro ⟨pre, post, h⟩
      cases pre with
      | nil => exact Or.inl ⟨post, by simpa using h⟩
      | cons x xs =>
        injection h with h1 h2
        exact Or.inr ⟨xs, post, h2⟩

instance occursInDecidable (pat s : List Char) : Decidable (occursIn pat s) :=
  decidable_of_iff (hasSubstr pat s = true) (hasSubstr_iff_occursIn pat s)

theorem firstArgmax_mem (m d e s : Nat) :
    firstArgmax m d e s ∈ ["military", "diplomatic", "economic", "social", "other"] := by
  unfold firstArgmax
  split_ifs <;> simp

theorem categorize_eq_firstArgmax (text : String) :
    categorizeArticle text =
      firstArgmax (categoryScore militaryKeywords (jsToLower text))
        (categoryScore diplomaticKeywords (jsToLower text))
        (categoryScore economicKeywords (jsToLower text))
        (categoryScore socialKeywords (jsToLower text)) := by
  unfold categorizeArticle firstArgmax
  simp only [List.foldl_cons, List.foldl_nil]
  split_ifs <;> simp_all <;> omega

/-- C3: for every text input, `categorizeArticle` returns exactly one of the
five categories; the result is the first category in declaration order
(military, diplomatic, economic, social) attaining the strictly highest
keyword-occurrence score (strict greater-than against a running maximum
initialized to 0), with "other" returned when the highest score is 0 — in
particular for the empty string. -/
theorem categorize_total_first_argmax (text : String) :
    categorizeArticle text ∈
      ["military", "diplomatic", "economic", "social", "other"] ∧
    categorizeArticle text =
      firstArgmax (categoryScore militaryKeywords (jsToLower text))
        (categoryScore diplomaticKeywords (jsToLower text))
        (categoryScore economicKeywords (jsToLower text))
        (categoryScore socialKeywords (jsToLower text)) ∧
    categorizeArticle "" = "other" :=
  ⟨categorize_eq_firstArgmax text ▸ firstArgmax_mem _ _ _ _,
   categorize_eq_firstArgmax text, by decide⟩

theorem containsHighPriorityKeyword_iff (text : String) :
    containsHighPriorityKeyword text = true ↔
      ∃ kw ∈ highPriorityKeywords, occursIn kw.data (jsToLower text).data := by
  simp [containsHighPriorityKeyword, List.any_eq_true, hasSubstr_iff_occursIn]

/-- C4: `isPriorityArticle` is true iff (military and the text contains a
high-priority keyword as a case-insensitive substring) or (diplomatic and
sentiment < -2) or (a high-priority keyword occurs and sentiment < -3);
consequently it is false whenever sentiment ≥ -2 and it is not the
military-with-keyword case. -/
theorem priority_iff_clauses (text category : String) (sentiment : Int) :
    (isPriorityArticle text category sentiment = true ↔
      ((category = "military" ∧
          ∃ kw ∈ highPriorityKeywords, occursIn kw.data (jsToLower text).data) ∨
       (category = "diplomatic" ∧ sentiment < -2) ∨
       ((∃ kw ∈ highPriorityKeywords, occursIn kw.data (jsToLower text).data) ∧
          sentiment < -3))) ∧
    (-2 ≤ sentiment →
      ¬(category = "military" ∧
          ∃ kw ∈ highPriorityKeywords, occursIn kw.data (jsToLower text).data) →
      isPriorityArticle text category sentiment = false) := by
  constructor
  · simp [isPriorityArticle, Bool.or_eq_true, Bool.and_eq_true, beq_iff_eq,
      decide_eq_true_eq, containsHighPriorityKeyword_iff, or_assoc]
  · intro h1 h2
    cases hb : isPriorityArticle text category sentiment with
    | false => rfl
    | true =>
      exfalso
      have := (by simpa [isPriorityArticle, Bool.or_eq_true, Bool.and_eq_true,
        beq_iff_eq, decide_eq_true_eq, containsHighPriorityKeyword_iff, or_assoc] using hb :
        (category = "military" ∧
          ∃ kw ∈ highPriorityKeywords, occursIn kw.data (jsToLower text).data) ∨
        (category = "diplomatic" ∧ sentiment < -2) ∨
        ((∃ kw ∈ highPriorityKeywords, occursIn kw.data (jsToLower text).data) ∧
          sentiment < -3))
      rcases this with h | ⟨-, h⟩ | ⟨-, h⟩
      · exact h2 h
      · omega
      · omega

theorem priority_iff_clauses_witness :
    isPriorityArticle ("Troops attack near border") ("military") (-4) = true ∧
    isPriorityArticle ("peace and cooperation summit") ("economic") (0) = false :=
  ⟨(priority_iff_clauses ("Troops attack near border") ("military") (-4)).1.mpr
      (Or.inl ⟨rfl, ("attack"), by decide, by decide⟩),
   (priority_iff_clauses ("peace and cooperation summit") ("economic") (0)).2
      (by decide) (by decide)⟩

/-- C5: `calculateAnalytics` applied to the empty article list returns
`none` rather than a zero-filled summary, for every choice of the external
collaborators. -/
theorem analytics_empty_none (now : Int) (fd : Int → String) (pd : String → Int) :
    calculateAnalytics now fd pd [] = none := rfl


end IndPakNews

namespace IndPakNews

theorem sentiment_filter_sum (l : List AnnotatedArticle) :
    (l.filter (fun a => decide (a.sentiment > 0))).length +
    (l.filter (fun a => a.sentiment == 0)).length +
    (l.filter (fun a => decide (a.sentiment < 0))).length = l.length := by
  induction l with
  | nil => rfl
  | cons a t ih =>
    rcases lt_trichotomy a.sentiment 0 with h | h | h
    · have h1 : ¬ a.sentiment > 0 := by omega
      have h2 : a.sentiment ≠ 0 := by omega
      simp [List.filter_cons, h1, h2, h] at ih ⊢
      omega
    · have h1 : ¬ a.sentiment > 0 := by omega
      have h3 : ¬ a.sentiment < 0 := by omega
      simp [List.filter_cons, h1, h3, h] at ih ⊢
      omega
    · have h2 : a.sentiment ≠ 0 := by omega
      have h3 : ¬ a.sentiment < 0 := by omega
      simp [List.filter_cons, h, h2, h3] at ih ⊢
      omega


/-- Shared concrete article for instantiating theorems with nonemptiness
hypotheses. -/
def wArticle : AnnotatedArticle :=
  { title := some "alpha beta", description := some "", url := "", image := "",
    urlToImage := "", publishedAt := 0, sourceName := "src", sentiment := -3,
    sentimentDetail := { score := -3, positive := [], negative := [] },
    category := "military", isPriority := true }

/-- C6: for every non-empty article list the sentiment counts of the
analytics summary partition the articles exactly once — positive counts
score > 0, neutral score == 0, negative score < 0 — so
positive + neutral + negative equals the number of articles. -/
theorem sentiment_counts_partition (now : Int) (fd : Int → String)
    (pd : String → Int) (articles : List AnnotatedArticle) (h : articles ≠ []) :
    ∃ s, calculateAnalytics now fd pd articles = some s ∧
      s.sentimentCounts.positive =
        (articles.filter (fun a => decide (a.sentiment > 0))).length ∧
      s.sentimentCounts.neutral =
        (articles.filter (fun a => a.sentiment == 0)).length ∧
      s.sentimentCounts.negative =
        (articles.filter (fun a => decide (a.sentiment < 0))).length ∧
      s.sentimentCounts.positive + s.sentimentCounts.neutral +
        s.sentimentCounts.negative = articles.length := by
  unfold calculateAnalytics
  rw [if_neg (by simpa [List.isEmpty_iff] using h)]
  exact ⟨_, rfl, rfl, rfl, rfl, sentiment_filter_sum articles⟩

theorem sentiment_counts_partition_witness :
    ∃ s, calculateAnalytics 0 (fun _ => ("1970-01-01")) (fun _ => 0) [wArticle]
        = some s ∧
      s.sentimentCounts.positive =
        ([wArticle].filter (fun a => decide (a.sentiment > 0))).length ∧
      s.sentimentCounts.neutral =
        ([wArticle].filter (fun a => a.sentiment == 0)).length ∧
      s.sentimentCounts.negative =
        ([wArticle].filter (fun a => decide (a.sentiment < 0))).length ∧
      s.sentimentCounts.positive + s.sentimentCounts.neutral +
        s.sentimentCounts.negative = [wArticle].length :=
  sentiment_counts_partition 0 (fun _ => ("1970-01-01")) (fun _ => 0) [wArticle]
    (by decide)

theorem category_filter_sum (l : List AnnotatedArticle)
    (h : ∀ a ∈ l,
      a.category ∈ ["military", "diplomatic", "economic", "social", "other"]) :
    (l.filter (fun a => a.category == "military")).length +
    (l.filter (fun a => a.category == "diplomatic")).length +
    (l.filter (fun a => a.category == "economic")).length +
    (l.filter (fun a => a.category == "social")).length +
    (l.filter (fun a => a.category == "other")).length = l.length := by
  induction l with
  | nil => rfl
  | cons a t ih =>
    have ha := h a (List.mem_cons_self a t)
    have ih2 := ih (fun x hx => h x (List.mem_cons_of_mem a hx))
    simp only [List.mem_cons, List.not_mem_nil, or_false] at ha
    rcases ha with h1 | h1 | h1 | h1 | h1 <;>
      simp [List.filter_cons, h1] <;> omega

/-- C10: for every non-empty article list in which each article's category
is one of the five defined categories, the five category counts of the
analytics summary sum to the number of articles: every article lands in
exactly one category bucket. -/
theorem category_counts_partition (now : Int) (fd : Int → String)
    (pd : String → Int) (articles : List AnnotatedArticle)
    (h1 : articles ≠ [])
    (h2 : ∀ a ∈ articles,
      a.category ∈ ["military", "diplomatic", "economic", "social", "other"]) :
    ∃ s, calculateAnalytics now fd pd articles = some s ∧
      s.categories.military + s.categories.diplomatic + s.categories.economic +
        s.categories.social + s.categories.other = articles.length := by
  unfold calculateAnalytics
  rw [if_neg (by simpa [List.isEmpty_iff] using h1)]
  exact ⟨_, rfl, category_filter_sum articles h2⟩

theorem category_counts_partition_witness :
    ∃ s, calculateAnalytics 0 (fun _ => ("1970-01-01")) (fun _ => 0) [wArticle]
        = some s ∧
      s.categories.military + s.categories.diplomatic + s.categories.economic +
        s.categories.social + s.categories.other = [wArticle].length :=
  category_counts_partition 0 (fun _ => ("1970-01-01")) (fun _ => 0) [wArticle]
    (by decide) (by decide)


theorem mem_stableInsert {α : Type} (lt : α → α → Bool) (p x : α) (l : List α) :
    x ∈ stableInsert lt p l ↔ x = p ∨ x ∈ l := by
  induction l with
  | nil => simp [stableInsert]
  | cons q rest ih =>
    simp only [stableInsert]
    split
    · simp [ih]
      tauto
    · simp

theorem pairwise_stableInsert_countDesc (p : String × Nat)
    (l : List (String × Nat)) (h : l.Pairwise (fun a b => b.2 ≤ a.2)) :
    (stableInsert (fun a b => decide (b.2 < a.2)) p l).Pairwise
      (fun a b => b.2 ≤ a.2) := by
  induction l with
  | nil => simp [stableInsert]
  | cons q rest ih =>
    rcases List.pairwise_cons.mp h with ⟨hq, hrest⟩
    simp only [stableInsert]
    split
    · rename_i hlt
      have hlt2 : p.2 < q.2 := by simpa using hlt
      refine List.pairwise_cons.mpr ⟨?_, ih hrest⟩
      intro x hx
      rcases (mem_stableInsert _ p x rest).mp hx with rfl | hx2
      · omega
      · exact hq x hx2
    · rename_i hge
      have hge2 : q.2 ≤ p.2 := by simpa using hge
      refine List.pairwise_cons.mpr ⟨?_, h⟩
      intro x hx
      rcases List.mem_cons.mp hx with rfl | hx2
      · exact hge2
      · exact le_trans (hq x hx2) hge2

theorem pairwise_stableSort_countDesc (l : List (String × Nat)) :
    (stableSort (fun a b => decide (b.2 < a.2)) l).Pairwise
      (fun a b => b.2 ≤ a.2) := by
  induction l with
  | nil => simp [stableSort]
  | cons p rest ih => exact pairwise_stableInsert_countDesc p _ ih

theorem trendingOf_le10_nonincreasing (articles : List AnnotatedArticle) :
    (trendingOf articles).length ≤ 10 ∧
    ((trendingOf articles).map Prod.snd).Pairwise (fun a b => b ≤ a) := by
  constructor
  · simp only [trendingOf, List.length_take]
    omega
  · rw [List.pairwise_map]
    exact (pairwise_stableSort_countDesc (keywordCounts articles)).take


/-- C7 (amended): for every non-empty article list the trending-keywords
list of the analytics summary has length at most 10 and its counts are
non-increasing (weakly descending: the sort is descending by count with
ties kept in first-encountered order, so equal adjacent counts occur;
strictly descending, as originally claimed, fails — see the
counterexample). -/
theorem trending_top10_nonincreasing (now : Int) (fd : Int → String)
    (pd : String → Int) (articles : List AnnotatedArticle)
    (h : articles ≠ []) :
    ∃ s, calculateAnalytics now fd pd articles = some s ∧
      s.trendingKeywords.length ≤ 10 ∧
      (s.trendingKeywords.map Prod.snd).Pairwise (fun a b => b ≤ a) := by
  unfold calculateAnalytics
  rw [if_neg (by simpa [List.isEmpty_iff] using h)]
  exact ⟨_, rfl, (trendingOf_le10_nonincreasing articles).1,
    (trendingOf_le10_nonincreasing articles).2⟩

theorem trending_top10_nonincreasing_witness :
    ∃ s, calculateAnalytics 0 (fun _ => ("1970-01-01")) (fun _ => 0) [wArticle]
        = some s ∧
      s.trendingKeywords.length ≤ 10 ∧
      (s.trendingKeywords.map Prod.snd).Pairwise (fun a b => b ≤ a) :=
  trending_top10_nonincreasing 0 (fun _ => ("1970-01-01")) (fun _ => 0)
    [wArticle] (by decide)

/-- C7 counterexample: one article whose kept tokens are "alpha" and "beta",
each occurring once — the trending list is [("alpha",1), ("beta",1)], whose
counts are NOT strictly descending. -/
theorem trending_strict_descent_cex :
    (calculateAnalytics 0 (fun _ => ("1970-01-01")) (fun _ => 0)
        [wArticle]).map (fun s => s.trendingKeywords)
      = some [("alpha", 1), ("beta", 1)] ∧
    ¬ (([("alpha", 1), ("beta", 1)].map Prod.snd).Pairwise
        (fun a b : Nat => b < a)) := by
  constructor
  · rfl
  · decide


/-- The threshold chain of `assessCrisisLevel`, as a function of the two
qualifying counts (first matching threshold wins). -/
def crisisFromCounts (m d : Nat) : String :=
  if m ≥ 5 ∨ m + d ≥ 8 then "severe"
  else if m ≥ 3 ∨ m + d ≥ 5 then "elevated"
  else if m ≥ 1 ∨ d ≥ 2 then "moderate"
  else "normal"

/-- Count of military articles with sentiment < -2 published within the
48-hour window before `now` (the two filters of `assessCrisisLevel`
merged into one). -/
def qualifiedMilitary (now : Int) (articles : List AnnotatedArticle) : Nat :=
  (articles.filter (fun a =>
    (a.category == "military" && decide (a.sentiment < -2)) &&
    decide (now - a.publishedAt < 48 * 3600000))).length

/-- Count of diplomatic articles with sentiment < -2 published within the
48-hour window before `now`. -/
def qualifiedDiplomatic (now : Int) (articles : List AnnotatedArticle) : Nat :=
  (articles.filter (fun a =>
    (a.category == "diplomatic" && decide (a.sentiment < -2)) &&
    decide (now - a.publishedAt < 48 * 3600000))).length

theorem assess_eq_counts (now : Int) (articles : List AnnotatedArticle) :
    assessCrisisLevel now articles =
      crisisFromCounts (qualifiedMilitary now articles)
        (qualifiedDiplomatic now articles) := by
  cases articles with
  | nil => rfl
  | cons a t =>
    simp only [assessCrisisLevel, crisisFromCounts, qualifiedMilitary,
      qualifiedDiplomatic, List.filter_filter, List.isEmpty_cons,
      Bool.false_eq_true, if_false]

/-- Severity rank of a crisis level in the order
normal < moderate < elevated < severe. -/
def levelRank (l : String) : Nat :=
  if l = "severe" then 3
  else if l = "elevated" then 2
  else if l = "moderate" then 1
  else 0

theorem levelRank_crisisFromCounts (m d : Nat) :
    levelRank (crisisFromCounts m d) =
      if m ≥ 5 ∨ m + d ≥ 8 then 3
      else if m ≥ 3 ∨ m + d ≥ 5 then 2
      else if m ≥ 1 ∨ d ≥ 2 then 1
      else 0 := by
  unfold crisisFromCounts
  split_ifs <;> simp [levelRank]

theorem levelRank_crisisFromCounts_mono (m d : Nat) :
    levelRank (crisisFromCounts m d) ≤ levelRank (crisisFromCounts (m + 1) d) := by
  rw [levelRank_crisisFromCounts, levelRank_crisisFromCounts]
  split_ifs <;> omega


/-- C2: `assessCrisisLevel` equals the claimed threshold chain — with M the
count of military articles with sentiment < -2 published within the last 48
hours of the evaluation instant and D the diplomatic count, the level is
"severe" if M ≥ 5 or M+D ≥ 8, else "elevated" if M ≥ 3 or M+D ≥ 5, else
"moderate" if M ≥ 1 or D ≥ 2, else "normal", first match winning, and the
empty list yields "normal".  (The claim's final clause — that the
evaluation instant is an explicit parameter of the source function — is
false of the code: the JS function reads the wall clock implicitly via
`moment()`; the model's `now` parameter makes that implicit instant
explicit.) -/
theorem crisis_threshold_semantics (now : Int) (articles : List AnnotatedArticle) :
    assessCrisisLevel now articles =
      crisisFromCounts (qualifiedMilitary now articles)
        (qualifiedDiplomatic now articles) ∧
    assessCrisisLevel now [] = "normal" :=
  ⟨assess_eq_counts now articles, rfl⟩

/-- C8: appending one more article that is in the 48-hour window, military
and of sentiment below -2 never strictly lowers the crisis level, in the
order normal < moderate < elevated < severe. -/
theorem crisis_monotone_qualifying_military (now : Int)
    (articles : List AnnotatedArticle) (a : AnnotatedArticle)
    (h1 : now - a.publishedAt < 48 * 3600000) (h2 : a.category = "military")
    (h3 : a.sentiment < -2) :
    levelRank (assessCrisisLevel now articles) ≤
      levelRank (assessCrisisLevel now (articles ++ [a])) := by
  rw [assess_eq_counts, assess_eq_counts]
  have hM : qualifiedMilitary now (articles ++ [a]) =
      qualifiedMilitary now articles + 1 := by
    unfold qualifiedMilitary
    rw [List.filter_append]
    have hc : (a.category == "military" && decide (a.sentiment < -2) &&
        decide (now - a.publishedAt < 48 * 3600000)) = true := by
      simp only [Bool.and_eq_true, beq_iff_eq, decide_eq_true_eq]
      exact ⟨⟨h2, h3⟩, h1⟩
    simp only [List.filter_cons, List.filter_nil, hc, eq_self_iff_true, if_true,
      List.length_append, List.length_cons, List.length_nil]
  have hD : qualifiedDiplomatic now (articles ++ [a]) =
      qualifiedDiplomatic now articles := by
    unfold qualifiedDiplomatic
    rw [List.filter_append]
    simp [h2]
  rw [hM, hD]
  exact levelRank_crisisFromCounts_mono _ _

theorem crisis_monotone_qualifying_military_witness :
    levelRank (assessCrisisLevel 0 []) ≤
      levelRank (assessCrisisLevel 0 ([] ++ [wArticle])) :=
  crisis_monotone_qualifying_military 0 [] wArticle (by decide) (by decide)
    (by decide)


/-- A legitimate lexicon-based sentiment scorer for instantiating the
annotator: its lexicon assigns polarity -1 to the token "undefined". -/
def cexAnalyze : String → SentimentResult :=
  fun s =>
    { score := -(Int.ofNat (countOccs ("undefined").data s.data))
      positive := []
      negative := [("undefined")] }

/-- Modelled from the claim wording (not from the source, which defaults
only `description`): the analyzed text is title ++ " " ++ description with
a missing title or missing description each substituted by the empty
string.  Stated only for comparison with `annotateOne`. -/
def annotateOneClaimed (analyze : String → SentimentResult)
    (article : RawArticle) : AnnotatedArticle :=
  let textToAnalyze := article.title.getD "" ++ " " ++ article.description.getD ""
  let sentimentScore := analyze textToAnalyze
  let category := categorizeArticle textToAnalyze
  { title := article.title
    description := article.description
    url := article.url
    image := article.image
    urlToImage := article.image
    publishedAt := article.publishedAt
    sourceName := article.sourceName
    sentiment := sentimentScore.score
    sentimentDetail := sentimentScore
    category := category
    isPriority := isPriorityArticle textToAnalyze category sentimentScore.score }

/-- A raw article with a missing title. -/
def cexRaw : RawArticle :=
  { title := none, description := some "", url := "", image := "",
    publishedAt := 0, sourceName := "" }

/-- C9 counterexample: on an article with a missing title the annotator
analyzes the text "undefined " (JS string coercion), not the " " the claim
predicts, and the difference is observable in the sentiment score. -/
theorem annotate_missing_title_cex :
    (annotate cexAnalyze [cexRaw]).map (fun a => a.sentiment) = [-1] ∧
    ([cexRaw].map (annotateOneClaimed cexAnalyze)).map (fun a => a.sentiment)
      = [0] := by
  constructor
  · rfl
  · rfl

/-- C9 (amended): the annotator returns exactly one annotated article per
raw article in input order (no filtering), and a missing description is
substituted with the empty string: every annotation-derived field is
unchanged when a missing description is replaced by an empty one.  (A
missing title, contrary to the original claim, is NOT substituted with the
empty string — JS coerces it to the string "undefined" in the analyzed
text; see the counterexample.) -/
theorem annotate_order_and_defaults (analyze : String → SentimentResult)
    (raws : List RawArticle) (i : Nat) :
    (annotate analyze raws).length = raws.length ∧
    (annotate analyze raws)[i]? = (raws[i]?).map (annotateOne analyze) ∧
    (∀ r : RawArticle,
      (annotateOne analyze { r with description := none }).sentimentDetail
        = (annotateOne analyze { r with description := some "" }).sentimentDetail ∧
      (annotateOne analyze { r with description := none }).category
        = (annotateOne analyze { r with description := some "" }).category ∧
      (annotateOne analyze { r with description := none }).isPriority
        = (annotateOne analyze { r with description := some "" }).isPriority) :=
  ⟨List.length_map raws (annotateOne analyze),
   List.getElem?_map (annotateOne analyze) raws i,
   fun _ => ⟨rfl, rfl, rfl⟩⟩


/-- C1: response-cache semantics of the `/api/news` handler.  (1) With a
stored entry younger than the TTL the handler returns the stored entry and
leaves the cache unchanged, for EVERY fetch outcome — the refresh is never
consulted.  (2)-(3) A failed refresh (fetch throws, or the provider
response has no article list) never modifies the stored cache entry.
(4)-(5) On a cache miss with a configured API key those two failures are
reported to the caller as the corresponding error responses, with the
cache still unchanged.  (6) A successful call at `t0` followed within the
TTL by a call whose refresh fails still returns the first (successful)
result, with the cache entry (data and fetchedAt) unchanged. -/
theorem cache_semantics :
    (∀ (analyze : String → SentimentResult) (fd : Int → String)
       (pd : String → Int) (apiKey : Option String) (d : ProcessedResponse)
       (t now : Int) (fr : Except String GNewsData),
      now - t < cacheTTL →
        handleNews analyze fd pd apiKey ⟨some d, some t⟩ now fr =
          (Except.ok d, ⟨some d, some t⟩)) ∧
    (∀ (analyze : String → SentimentResult) (fd : Int → String)
       (pd : String → Int) (apiKey : Option String) (cache : NewsCache)
       (now : Int) (msg : String),
      (handleNews analyze fd pd apiKey cache now (Except.error msg)).2 = cache) ∧
    (∀ (analyze : String → SentimentResult) (fd : Int → String)
       (pd : String → Int) (apiKey : Option String) (cache : NewsCache)
       (now : Int),
      (handleNews analyze fd pd apiKey cache now (Except.ok ⟨none⟩)).2 = cache) ∧
    (∀ (analyze : String → SentimentResult) (fd : Int → String)
       (pd : String → Int) (k : String) (cache : NewsCache) (now : Int)
       (msg : String),
      k ≠ "" → cacheMiss cache now = true →
        handleNews analyze fd pd (some k) cache now (Except.error msg) =
          (Except.error ("Failed to fetch news data"), cache)) ∧
    (∀ (analyze : String → SentimentResult) (fd : Int → String)
       (pd : String → Int) (k : String) (cache : NewsCache) (now : Int),
      k ≠ "" → cacheMiss cache now = true →
        handleNews analyze fd pd (some k) cache now (Except.ok ⟨none⟩) =
          (Except.error ("Invalid API response"), cache)) ∧
    (∀ (analyze : String → SentimentResult) (fd : Int → String)
       (pd : String → Int) (k : String) (arts : List RawArticle)
       (t0 t1 : Int) (msg : String),
      k ≠ "" → t1 - t0 < cacheTTL →
        handleNews analyze fd pd (some k)
            (handleNews analyze fd pd (some k) ⟨none, none⟩ t0
              (Except.ok ⟨some arts⟩)).2 t1 (Except.error msg) =
          ((handleNews analyze fd pd (some k) ⟨none, none⟩ t0
              (Except.ok ⟨some arts⟩)).1,
           (handleNews analyze fd pd (some k) ⟨none, none⟩ t0
              (Except.ok ⟨some arts⟩)).2)) := by
  refine ⟨?_, ?_, ?_, ?_, ?_, ?_⟩
  · intro analyze fd pd apiKey d t now fr h
    simp [handleNews, h]
  · intro analyze fd pd apiKey cache now msg
    rcases cache with ⟨cd, lf⟩
    rcases cd with - | d <;> rcases lf with - | t <;>
      simp [handleNews, refreshNews] <;> split_ifs <;> rfl
  · intro analyze fd pd apiKey cache now
    rcases cache with ⟨cd, lf⟩
    rcases cd with - | d <;> rcases lf with - | t <;>
      simp [handleNews, refreshNews] <;> split_ifs <;> rfl
  · intro analyze fd pd k cache now msg hk hmiss
    rcases cache with ⟨cd, lf⟩
    rcases cd with - | d <;> rcases lf with - | t <;>
      simp_all [handleNews, refreshNews, cacheMiss]
  · intro analyze fd pd k cache now hk hmiss
    rcases cache with ⟨cd, lf⟩
    rcases cd with - | d <;> rcases lf with - | t <;>
      simp_all [handleNews, refreshNews, cacheMiss]
  · intro analyze fd pd k arts t0 t1 msg hk h
    have h1 : handleNews analyze fd pd (some k) ⟨none, none⟩ t0
        (Except.ok ⟨some arts⟩) =
        (Except.ok ⟨annotate analyze arts,
            calculateAnalytics t0 fd pd (annotate analyze arts)⟩,
         ⟨some ⟨annotate analyze arts,
            calculateAnalytics t0 fd pd (annotate analyze arts)⟩, some t0⟩) := by
      simp [handleNews, refreshNews, hk]
    rw [h1]
    simp [handleNews, h]


/-- Trivial collaborators for concrete instantiations of `handleNews`. -/
def wAnalyze : String → SentimentResult :=
  fun _ => { score := 0, positive := [], negative := [] }

def wFd : Int → String := fun _ => "1970-01-01"

def wPd : String → Int := fun _ => 0

def wResp : ProcessedResponse := { articles := [], analytics := none }

theorem cache_semantics_witness :
    (handleNews wAnalyze wFd wPd (some ("key")) ⟨some wResp, some 0⟩ 1000
        (Except.error ("boom")) = (Except.ok wResp, ⟨some wResp, some 0⟩)) ∧
    ((handleNews wAnalyze wFd wPd (some ("key")) ⟨none, none⟩ 0
        (Except.error ("boom"))).2 = ⟨none, none⟩) ∧
    ((handleNews wAnalyze wFd wPd (some ("key")) ⟨none, none⟩ 0
        (Except.ok ⟨none⟩)).2 = ⟨none, none⟩) ∧
    (handleNews wAnalyze wFd wPd (some ("key")) ⟨none, none⟩ 0
        (Except.error ("boom")) =
      (Except.error ("Failed to fetch news data"), ⟨none, none⟩)) ∧
    (handleNews wAnalyze wFd wPd (some ("key")) ⟨none, none⟩ 0
        (Except.ok ⟨none⟩) =
      (Except.error ("Invalid API response"), ⟨none, none⟩)) ∧
    (handleNews wAnalyze wFd wPd (some ("key"))
        (handleNews wAnalyze wFd wPd (some ("key")) ⟨none, none⟩ 0
          (Except.ok ⟨some []⟩)).2 1 (Except.error ("boom")) =
      ((handleNews wAnalyze wFd wPd (some ("key")) ⟨none, none⟩ 0
          (Except.ok ⟨some []⟩)).1,
       (handleNews wAnalyze wFd wPd (some ("key")) ⟨none, none⟩ 0
          (Except.ok ⟨some []⟩)).2)) :=
  ⟨cache_semantics.1 wAnalyze wFd wPd (some ("key")) wResp 0 1000
      (Except.error ("boom")) (by decide),
   cache_semantics.2.1 wAnalyze wFd wPd (some ("key")) ⟨none, none⟩ 0 ("boom"),
   cache_semantics.2.2.1 wAnalyze wFd wPd (some ("key")) ⟨none, none⟩ 0,
   cache_semantics.2.2.2.1 wAnalyze wFd wPd ("key") ⟨none, none⟩ 0 ("boom")
     (by decide) (by decide),
   cache_semantics.2.2.2.2.1 wAnalyze wFd wPd ("key") ⟨none, none⟩ 0
     (by decide) (by decide),
   cache_semantics.2.2.2.2.2 wAnalyze wFd wPd ("key") [] 0 1 ("boom")
     (by decide) (by decide)⟩

end IndPakNews
